import Mathlib

/-!
Shallow embedding of the EZNotes single-page front-end (src/src/App.tsx,
second `App` component).  React `useState` cells and `useRef` cells become
fields of a single `Model` structure; each event handler becomes a function
`Model → Model` (parameterised by the external inputs it reads: the selected
file, the webhook response, the sampled audio level, the current date/time).
Browser resources are tracked explicitly: acquired microphone streams get
ids, and every `track.stop()` sweep over a stream's track set is recorded in
`stopCalls`; live `setInterval` timers and `requestAnimationFrame` callbacks
are tracked in `liveIntervals` / `liveFrames`; the asynchronous
`MediaRecorder.onstop` callback is modelled as a queued closure fired by
`fireOnstop`.
-/

namespace EZNotes

/-- A selected or constructed `File`: its `name` and MIME `type`. -/
structure FileData where
  name : String
  type : String
deriving Repr, DecidableEq

/-- The two generated text artifacts (`interface OutputData`). -/
structure OutputData where
  soapNote : String
  patientSummary : String
deriving Repr, DecidableEq

/-- Which output types the user ticked (`interface OutputSelection`). -/
structure OutputSelection where
  soapNote : Bool
  patientSummary : Bool
deriving Repr, DecidableEq

/-- The `MediaRecorder` object's own state. -/
inductive MRState where
  | recording
  | paused
  | stopped
deriving Repr, DecidableEq

/-- The `MediaRecorder` held in `mediaRecorderRef`, with the stream it was
constructed over. -/
structure MediaRecorderModel where
  state : MRState
  streamId : Nat
deriving Repr, DecidableEq

/-- A queued `onstop` callback: the closure captures the `stream` local and
the `chunks` array of the `startRecording` call that registered it. -/
structure OnstopClosure where
  streamId : Nat
  chunks : List Nat
deriving Repr, DecidableEq

/-- The whole component state: React state cells, `useRef` cells, and the
explicit accounting of browser-side resources. -/
structure Model where
  -- React state cells, in declaration order
  file : Option FileData
  isUploading : Bool
  output : Option OutputData
  error : Option String
  outputSelection : OutputSelection
  isRecording : Bool
  isPaused : Bool
  recordedBlob : Option (List Nat)
  recordingTime : Nat
  isPlaying : Bool
  showRecorder : Bool
  audioLevel : Rat
  -- refs
  isCancelling : Bool
  fileInputValue : String
  mediaRecorderRef : Option MediaRecorderModel
  streamRef : Option Nat
  intervalRef : Option Nat
  audioSrc : Option (List Nat)
  audioContextRef : Option Nat
  analyserRef : Bool
  animationRef : Option Nat
  -- the `chunks` array of the current recording session
  chunks : List Nat
  -- browser-side resource accounting
  nextStream : Nat
  nextInterval : Nat
  nextFrame : Nat
  nextCtx : Nat
  liveIntervals : List Nat
  liveFrames : List Nat
  openContexts : List Nat
  stopCalls : List Nat
  pendingOnstops : List OnstopClosure

/-- Initial component state: every `useState` default, every ref `null`. -/
def initModel : Model where
  file := none
  isUploading := false
  output := none
  error := none
  outputSelection := ⟨true, true⟩
  isRecording := false
  isPaused := false
  recordedBlob := none
  recordingTime := 0
  isPlaying := false
  showRecorder := false
  audioLevel := 0
  isCancelling := false
  fileInputValue := ""
  mediaRecorderRef := none
  streamRef := none
  intervalRef := none
  audioSrc := none
  audioContextRef := none
  analyserRef := false
  animationRef := none
  chunks := []
  nextStream := 0
  nextInterval := 0
  nextFrame := 0
  nextCtx := 0
  liveIntervals := []
  liveFrames := []
  openContexts := []
  stopCalls := []
  pendingOnstops := []

/-- JavaScript `String.prototype.endsWith`, over the character list. -/
def jsEndsWith (s suffix : String) : Bool :=
  List.isSuffixOf suffix.data s.data

/-- JavaScript `String.prototype.startsWith`, over the character list. -/
def jsStartsWith (s pre : String) : Bool :=
  List.isPrefixOf pre.data s.data

/-- Substring search on character lists (helper for `jsIncludes`). -/
def containsSub (needle : List Char) : List Char → Bool
  | [] => needle.isEmpty
  | c :: rest => List.isPrefixOf needle (c :: rest) || containsSub needle rest

/-- JavaScript `String.prototype.includes`. -/
def jsIncludes (s sub : String) : Bool :=
  containsSub sub.data s.data

/-- `selectedFile.type === "text/plain" || selectedFile.name.endsWith(".txt")`
(App.tsx lines 894-895). -/
def isTextFile (f : FileData) : Bool :=
  decide (f.type = "text/plain") || jsEndsWith f.name ".txt"

/-- `type.startsWith("audio/") || name.endsWith(".mp3"/".m4a"/".wav")`
(App.tsx lines 896-900). -/
def isAudioFile (f : FileData) : Bool :=
  jsStartsWith f.type "audio/" || jsEndsWith f.name ".mp3" ||
    jsEndsWith f.name ".m4a" || jsEndsWith f.name ".wav"

/-- `handleFileSelect` (App.tsx lines 892-909): accept and clear the error,
or surface the unsupported-type message and set `file` to `null`. -/
def handleFileSelect (selectedFile : FileData) (m : Model) : Model :=
  if isTextFile selectedFile || isAudioFile selectedFile then
    { m with file := some selectedFile, error := none }
  else
    { m with
        error := some "Please select a .txt file or audio file (.mp3, .m4a, .wav)",
        file := none }

/-- `startAudioLevelMonitoring` (App.tsx lines 552-586): open an
`AudioContext`, attach an analyser, and run `updateAudioLevel` once, which
samples the live signal (the sampled normalized level is the external input
`lvl`) and schedules itself via `requestAnimationFrame`. -/
def startAudioLevelMonitoring (lvl : Rat) (m : Model) : Model :=
  let cid := m.nextCtx
  let fid := m.nextFrame
  { m with
      audioContextRef := some cid
      nextCtx := cid + 1
      openContexts := cid :: m.openContexts
      analyserRef := true
      audioLevel := lvl
      animationRef := some fid
      nextFrame := fid + 1
      liveFrames := fid :: m.liveFrames }

/-- `stopAudioLevelMonitoring` (App.tsx lines 588-599): cancel the pending
animation frame, close the `AudioContext`, drop the analyser, zero the
displayed level. -/
def stopAudioLevelMonitoring (m : Model) : Model :=
  let m1 :=
    match m.animationRef with
    | some fid =>
        { m with liveFrames := m.liveFrames.erase fid, animationRef := none }
    | none => m
  let m2 :=
    match m1.audioContextRef with
    | some cid =>
        { m1 with openContexts := m1.openContexts.erase cid, audioContextRef := none }
    | none => m1
  { m2 with analyserRef := false, audioLevel := 0 }

/-- `startRecording` (App.tsx lines 602-687).  `ok` is whether
`getUserMedia` grants access; on failure only the error message is set.  On
success: acquire a fresh stream, build a `MediaRecorder` over it, start level
monitoring (sampling level `lvl`), reset the `chunks` array, start the
recorder, set `isRecording`, zero the elapsed time, and start the one-second
interval.  The registered `onstop` handler is modelled by `fireOnstop`. -/
def startRecording (ok : Bool) (lvl : Rat) (m : Model) : Model :=
  if ok then
    let sid := m.nextStream
    let m1 := { m with streamRef := some sid, nextStream := sid + 1 }
    let m2 := { m1 with mediaRecorderRef := some ⟨MRState.recording, sid⟩ }
    let m3 := startAudioLevelMonitoring lvl m2
    let m4 := { m3 with chunks := [] }
    let m5 := { m4 with isRecording := true, recordingTime := 0 }
    let iid := m5.nextInterval
    { m5 with
        intervalRef := some iid
        nextInterval := iid + 1
        liveIntervals := iid :: m5.liveIntervals }
  else
    { m with error := some "Could not access microphone. Please allow microphone access." }

/-- `mediaRecorder.ondataavailable` (App.tsx lines 628-632): push the chunk
when its size is positive. -/
def dataAvailable (size : Nat) (m : Model) : Model :=
  if 0 < size then { m with chunks := m.chunks ++ [size] } else m

/-- One second elapses: every live `setInterval` callback runs once, and
every callback registered in this component is `setRecordingTime(prev =>
prev + 1)` (App.tsx lines 676-678 and 727-729). -/
def tick (m : Model) : Model :=
  { m with recordingTime := m.recordingTime + m.liveIntervals.length }

/-- `pauseRecording` (App.tsx lines 689-710): guarded by
`mediaRecorderRef.current && isRecording && !isPaused`; pauses the recorder,
sets `isPaused`, clears the interval (without nulling the ref), stops level
monitoring.  Log-only otherwise. -/
def pauseRecording (m : Model) : Model :=
  match m.mediaRecorderRef with
  | some rec =>
      if m.isRecording && !m.isPaused then
        let m1 := { m with
          mediaRecorderRef := some { rec with state := MRState.paused }
          isPaused := true }
        let m2 :=
          match m1.intervalRef with
          | some iid => { m1 with liveIntervals := m1.liveIntervals.erase iid }
          | none => m1
        stopAudioLevelMonitoring m2
      else m
  | none => m

/-- `resumeRecording` (App.tsx lines 712-738): guarded by
`mediaRecorderRef.current && isRecording && isPaused`; resumes the recorder,
clears `isPaused`, starts a fresh one-second interval, and restarts level
monitoring when the stream ref is still set.  Log-only otherwise. -/
def resumeRecording (lvl : Rat) (m : Model) : Model :=
  match m.mediaRecorderRef with
  | some rec =>
      if m.isRecording && m.isPaused then
        let m1 := { m with
          mediaRecorderRef := some { rec with state := MRState.recording }
          isPaused := false }
        let iid := m1.nextInterval
        let m2 := { m1 with
          intervalRef := some iid
          nextInterval := iid + 1
          liveIntervals := iid :: m1.liveIntervals }
        match m2.streamRef with
        | some _ => startAudioLevelMonitoring lvl m2
        | none => m2
      else m
  | none => m

/-- `mediaRecorder.stop()`: the recorder becomes inactive and its `onstop`
callback (closing over the `stream` local and the `chunks` array) is queued
to fire asynchronously. -/
def queueOnstop (rec : MediaRecorderModel) (m : Model) : Model :=
  { m with
      mediaRecorderRef := some { rec with state := MRState.stopped }
      pendingOnstops := m.pendingOnstops ++ [⟨rec.streamId, m.chunks⟩] }

/-- `stopRecording` (App.tsx lines 740-764): guarded by
`mediaRecorderRef.current && (isRecording || isPaused)`; stops the recorder
(queueing `onstop`), clears both flags, clears the interval, stops level
monitoring. -/
def stopRecording (m : Model) : Model :=
  match m.mediaRecorderRef with
  | some rec =>
      if m.isRecording || m.isPaused then
        let m1 := queueOnstop rec m
        let m2 := { m1 with isRecording := false, isPaused := false }
        let m3 :=
          match m2.intervalRef with
          | some iid => { m2 with liveIntervals := m2.liveIntervals.erase iid }
          | none => m2
        stopAudioLevelMonitoring m3
      else m
  | none => m

/-- `cancelRecording` (App.tsx lines 766-815): set the cancelling flag, stop
the recorder when recording or paused (queueing `onstop`), reset the
recording state cells, clear the interval, stop the stream's tracks directly
and null the stream ref, stop level monitoring, clear the audio element. -/
def cancelRecording (m : Model) : Model :=
  let m0 := { m with isCancelling := true }
  let m1 :=
    match m0.mediaRecorderRef with
    | some rec =>
        if m0.isRecording || m0.isPaused then queueOnstop rec m0 else m0
    | none => m0
  let m2 := { m1 with
    isRecording := false
    isPaused := false
    recordingTime := 0
    recordedBlob := none
    isPlaying := false }
  let m3 :=
    match m2.intervalRef with
    | some iid => { m2 with liveIntervals := m2.liveIntervals.erase iid }
    | none => m2
  let m4 :=
    match m3.streamRef with
    | some sid => { m3 with stopCalls := m3.stopCalls ++ [sid], streamRef := none }
    | none => m3
  let m5 := stopAudioLevelMonitoring m4
  { m5 with audioSrc := none }

/-- `mediaRecorder.onstop` firing (App.tsx lines 634-667): unless the
cancelling flag is set, finalize the chunks into the recorded blob and point
the audio element at it; then stop the captured stream's tracks; finally
reset the cancelling flag (via the 100ms timeout) when it was set. -/
def fireOnstop (m : Model) : Model :=
  match m.pendingOnstops with
  | [] => m
  | cl :: rest =>
      let m0 := { m with pendingOnstops := rest }
      let m1 :=
        if !m0.isCancelling then
          { m0 with recordedBlob := some cl.chunks, audioSrc := some cl.chunks }
        else m0
      let m2 := { m1 with stopCalls := m1.stopCalls ++ [cl.streamId] }
      if m2.isCancelling then { m2 with isCancelling := false } else m2

/-- `playRecording` (App.tsx lines 817-827): toggle playback when a recorded
blob exists. -/
def playRecording (m : Model) : Model :=
  match m.recordedBlob with
  | some _ => { m with isPlaying := !m.isPlaying }
  | none => m

/-- The date/time strings the component reads off `new Date()`:
`toISOString().split("T")[0]` and `toTimeString().split(" ")[0]`. -/
structure DateTimeStrings where
  isoDate : String
  timeOfDay : String
deriving Repr, DecidableEq

/-- `.replace(/:/g, "-")`: a global single-character replacement is a map
over the characters. -/
def replaceColonsWithDashes (s : String) : String :=
  ⟨s.data.map (fun c => if c = ':' then '-' else c)⟩

/-- `generateRecordingFilename` (App.tsx lines 829-834). -/
def generateRecordingFilename (now : DateTimeStrings) : String :=
  "recording_" ++ now.isoDate ++ "_" ++ replaceColonsWithDashes now.timeOfDay ++ ".wav"

/-- `downloadRecording` (App.tsx lines 836-847): when a blob exists, the
download is saved under the generated recording filename. -/
def downloadRecording (now : DateTimeStrings) (m : Model) : Option String :=
  match m.recordedBlob with
  | some _ => some (generateRecordingFilename now)
  | none => none

/-- `useRecording` (App.tsx lines 849-858): when a blob exists, wrap it as a
`File` named by `generateRecordingFilename` with type `audio/wav`, make it
the active input, close the recorder panel, clear the error. -/
def useRecording (now : DateTimeStrings) (m : Model) : Model :=
  match m.recordedBlob with
  | some _ =>
      { m with
          file := some ⟨generateRecordingFilename now, "audio/wav"⟩
          showRecorder := false
          error := none }
  | none => m

/-- `clearRecording` (App.tsx lines 860-882): discard the blob, elapsed time,
playback and pause flags, reset the cancelling flag, stop level monitoring,
clear the audio element. -/
def clearRecording (m : Model) : Model :=
  let m1 := { m with
    recordedBlob := none
    recordingTime := 0
    isPlaying := false
    isPaused := false
    isCancelling := false }
  let m2 := stopAudioLevelMonitoring m1
  { m2 with audioSrc := none }

/-- The parsed JSON body of the webhook response; a field maps to `none`
when absent.  JavaScript truthiness makes an empty string count as absent. -/
structure WebhookResult where
  soap_note_text : Option String
  patient_summary_text : Option String
  soapNote : Option String
  patientSummary : Option String
deriving Repr, DecidableEq

/-- JavaScript truthiness of a possibly-absent string field. -/
def truthy : Option String → Bool
  | none => false
  | some s => decide (s ≠ "")

/-- The webhook HTTP response as the component observes it. -/
structure Response where
  status : Nat
  contentType : Option String
  body : WebhookResult
deriving Repr, DecidableEq

/-- `response.ok`: status in the 200-299 range. -/
def respOk (r : Response) : Bool :=
  decide (200 ≤ r.status ∧ r.status ≤ 299)

/-- `!contentType || !contentType.includes("application/json")`, negated:
a `null` header is falsy, and an empty or non-JSON header fails `includes`
(App.tsx lines 952-953). -/
def contentTypeOk (r : Response) : Bool :=
  match r.contentType with
  | none => false
  | some ct => jsIncludes ct "application/json"

/-- The mock SOAP note built when the webhook returns neither known field
pair (App.tsx lines 977-997). -/
def mockSoapNote (fileName : String) : String :=
  "SOAP Note - " ++ fileName ++
  "\n\nSUBJECTIVE:\nPatient presents for routine dental examination and cleaning.\n\nOBJECTIVE:\n- Vital signs: BP 120/80, HR 72, Temp 98.6°F\n- Oral examination reveals good oral hygiene\n- No visible cavities or signs of periodontal disease\n- Gingiva appears healthy with no bleeding on probing\n\nASSESSMENT:\n- Patient in good oral health\n- No active dental disease detected\n- Recommend continued preventive care\n\nPLAN:\n- Completed routine dental cleaning\n- Applied fluoride treatment\n- Scheduled 6-month follow-up appointment\n- Reinforced oral hygiene instructions"

/-- The mock patient summary of the same fallback (App.tsx lines 998-1015). -/
def mockPatientSummary : String :=
  "Your Dental Visit Summary\n\nToday\x27s Visit:\n• We completed your routine dental cleaning and examination\n• Your teeth and gums are in excellent health\n• No cavities or other dental problems were found\n\nWhat We Did:\n• Thoroughly cleaned your teeth and removed any plaque buildup\n• Applied a fluoride treatment to strengthen your teeth\n• Conducted a complete oral health examination\n\nNext Steps:\n• Continue your daily brushing and flossing routine\n• Schedule your next cleaning in 6 months\n• Call us if you experience any dental pain or concerns\n\nYour oral health is excellent! Keep up the great work with your daily dental care routine."

/-- `handleUpload` (App.tsx lines 923-1025), from submit to settle.  Returns
unchanged when no file is active.  Otherwise: set `isUploading`, clear the
error, and run the try/catch/finally: a non-ok status or a missing/non-JSON
content type throws into the catch, which sets the failure message and
leaves `output` untouched; on a JSON body, pick the new-format pair, else
the legacy pair, else the mock pair, by JavaScript truthiness. -/
def handleUpload (resp : Response) (m : Model) : Model :=
  match m.file with
  | none => m
  | some file =>
      let m1 := { m with isUploading := true, error := none }
      if !(respOk resp) then
        { m1 with
            error := some "Failed to process file. Please try again."
            isUploading := false }
      else if !(contentTypeOk resp) then
        { m1 with
            error := some "Failed to process file. Please try again."
            isUploading := false }
      else
        let result := resp.body
        let m2 :=
          if truthy result.soap_note_text && truthy result.patient_summary_text then
            { m1 with
                output := some ⟨result.soap_note_text.getD "",
                                result.patient_summary_text.getD ""⟩ }
          else if truthy result.soapNote && truthy result.patientSummary then
            { m1 with
                output := some ⟨result.soapNote.getD "",
                                result.patientSummary.getD ""⟩ }
          else
            { m1 with output := some ⟨mockSoapNote file.name, mockPatientSummary⟩ }
        { m2 with isUploading := false }

/-- Strip the final extension: JavaScript `name.replace(/\.[^/.]+$/, "")`
(App.tsx line 1035).  The regex matches a dot followed by a nonempty run of
characters none of which is a dot or slash, anchored at the end. -/
def stripExt (s : String) : String :=
  let rev := s.data.reverse
  let ext := rev.takeWhile (fun c => !(c == '.' || c == '/'))
  match rev.drop ext.length with
  | '.' :: rest => if ext.isEmpty then s else ⟨rest.reverse⟩
  | _ => s

/-- `downloadFile` (App.tsx lines 1032-1051): the filename of the saved
note.  `content` is the note text written into the blob (it does not affect
the name). -/
def downloadFile (content : String) (type : String) (now : DateTimeStrings)
    (m : Model) : String :=
  let originalName :=
    match m.file with
    | some f => stripExt f.name
    | none => "patient-visit"
  let _ := content
  originalName ++ "_" ++ type ++ "_" ++ now.isoDate ++ ".txt"

/-- The `Generate Another Note` button's `onClick` (App.tsx lines
1512-1540): reset the input, output, error, selection, and the recording
state cells, reset the cancelling flag, stop level monitoring, clear the
file input element and the audio element.  It clears neither the interval
nor the stream nor the recorder. -/
def resetForm (m : Model) : Model :=
  let m1 := { m with
    file := none
    output := none
    error := none
    outputSelection := ⟨true, true⟩
    showRecorder := false
    recordedBlob := none
    recordingTime := 0
    isPlaying := false
    isRecording := false
    isPaused := false
    isCancelling := false }
  let m2 := stopAudioLevelMonitoring m1
  { m2 with fileInputValue := "", audioSrc := none }

/-! ## Theorems -/

/-- C4, counterexample: selecting `scan.pdf` (MIME `application/pdf`) after a
valid `notes.txt` selection surfaces the unsupported-type error but does NOT
leave the active input unchanged — `handleFileSelect` clears it to `none`,
while its prior value was the `.txt` file.  This falsifies the claim that
the file state keeps its prior value. -/
theorem C4_counterexample :
    (handleFileSelect ⟨"scan.pdf", "application/pdf"⟩
        (handleFileSelect ⟨"notes.txt", "text/plain"⟩ initModel)).error
      = some "Please select a .txt file or audio file (.mp3, .m4a, .wav)" ∧
    (handleFileSelect ⟨"notes.txt", "text/plain"⟩ initModel).file
      = some ⟨"notes.txt", "text/plain"⟩ ∧
    (handleFileSelect ⟨"scan.pdf", "application/pdf"⟩
        (handleFileSelect ⟨"notes.txt", "text/plain"⟩ initModel)).file
      ≠ (handleFileSelect ⟨"notes.txt", "text/plain"⟩ initModel).file := by
  refine ⟨rfl, rfl, ?_⟩
  decide

/-- C4, amended: for every file whose name extension and MIME type both fall
outside the accepted set, `handleFileSelect` surfaces the unsupported-type
error message and CLEARS the active input (sets the file state to `none`,
replacing any prior value). -/
theorem C4_reject_sets_error_and_clears_file (m : Model) (f : FileData)
    (ht : isTextFile f = false) (ha : isAudioFile f = false) :
    (handleFileSelect f m).error
      = some "Please select a .txt file or audio file (.mp3, .m4a, .wav)" ∧
    (handleFileSelect f m).file = none := by
  simp [handleFileSelect, ht, ha]

/-- C4 witness: the amended theorem applied to `scan.pdf`. -/
theorem C4_reject_sets_error_and_clears_file_witness :
    isTextFile ⟨"scan.pdf", "application/pdf"⟩ = false ∧
    isAudioFile ⟨"scan.pdf", "application/pdf"⟩ = false ∧
    ((handleFileSelect ⟨"scan.pdf", "application/pdf"⟩ initModel).error
        = some "Please select a .txt file or audio file (.mp3, .m4a, .wav)" ∧
      (handleFileSelect ⟨"scan.pdf", "application/pdf"⟩ initModel).file = none) :=
  ⟨by decide, by decide,
    C4_reject_sets_error_and_clears_file initModel ⟨"scan.pdf", "application/pdf"⟩
      (by decide) (by decide)⟩

/-- C5: for every submission with an active file, a non-success HTTP status
or a non-JSON content type lands in the catch block, which sets the
user-visible failure message and leaves the previously rendered output
untouched. -/
theorem C5_upload_error_leaves_output (m : Model) (f : FileData) (resp : Response)
    (hf : m.file = some f)
    (hbad : respOk resp = false ∨ contentTypeOk resp = false) :
    (handleUpload resp m).error = some "Failed to process file. Please try again." ∧
    (handleUpload resp m).output = m.output := by
  rcases hbad with hbad | hbad
  · simp [handleUpload, hf, hbad]
  · rcases hok : respOk resp <;> simp [handleUpload, hf, hbad, hok]

/-- C5 witness: an HTTP 500 response against a state holding a previously
rendered output. -/
theorem C5_upload_error_leaves_output_witness :
    ({ handleFileSelect ⟨"notes.txt", "text/plain"⟩ initModel with
        output := some ⟨"prior note", "prior summary"⟩ } : Model).file
      = some ⟨"notes.txt", "text/plain"⟩ ∧
    (respOk ⟨500, some "application/json", ⟨none, none, none, none⟩⟩ = false ∨
      contentTypeOk ⟨500, some "application/json", ⟨none, none, none, none⟩⟩ = false) ∧
    ((handleUpload ⟨500, some "application/json", ⟨none, none, none, none⟩⟩
        { handleFileSelect ⟨"notes.txt", "text/plain"⟩ initModel with
            output := some ⟨"prior note", "prior summary"⟩ }).error
      = some "Failed to process file. Please try again." ∧
     (handleUpload ⟨500, some "application/json", ⟨none, none, none, none⟩⟩
        { handleFileSelect ⟨"notes.txt", "text/plain"⟩ initModel with
            output := some ⟨"prior note", "prior summary"⟩ }).output
      = ({ handleFileSelect ⟨"notes.txt", "text/plain"⟩ initModel with
            output := some ⟨"prior note", "prior summary"⟩ } : Model).output) :=
  ⟨rfl, Or.inl (by decide),
    C5_upload_error_leaves_output _ ⟨"notes.txt", "text/plain"⟩ _ rfl (Or.inl (by decide))⟩

/-- C6: a successful JSON response in which neither the
`soap_note_text`/`patient_summary_text` pair nor the legacy
`soapNote`/`patientSummary` pair is present yields the fixed mock
placeholder pair and no error. -/
theorem C6_missing_fields_yield_mock (m : Model) (f : FileData) (resp : Response)
    (hf : m.file = some f)
    (hok : respOk resp = true) (hct : contentTypeOk resp = true)
    (hnew : resp.body.soap_note_text = none ∨ resp.body.patient_summary_text = none)
    (hleg : resp.body.soapNote = none ∨ resp.body.patientSummary = none) :
    (handleUpload resp m).output = some ⟨mockSoapNote f.name, mockPatientSummary⟩ ∧
    (handleUpload resp m).error = none := by
  rcases hnew with h12 | h12 <;> rcases hleg with h34 | h34 <;>
    simp [handleUpload, hf, hok, hct, h12, h34, truthy]

/-- C6 witness: a 200 JSON response in which each pair has one field present
and the other missing, so neither complete pair is present. -/
theorem C6_missing_fields_yield_mock_witness :
    (handleFileSelect ⟨"notes.txt", "text/plain"⟩ initModel).file
      = some ⟨"notes.txt", "text/plain"⟩ ∧
    respOk ⟨200, some "application/json", ⟨some "a note", none, none, some "a summary"⟩⟩ = true ∧
    contentTypeOk ⟨200, some "application/json", ⟨some "a note", none, none, some "a summary"⟩⟩ = true ∧
    ((handleUpload ⟨200, some "application/json", ⟨some "a note", none, none, some "a summary"⟩⟩
        (handleFileSelect ⟨"notes.txt", "text/plain"⟩ initModel)).output
      = some ⟨mockSoapNote "notes.txt", mockPatientSummary⟩ ∧
     (handleUpload ⟨200, some "application/json", ⟨some "a note", none, none, some "a summary"⟩⟩
        (handleFileSelect ⟨"notes.txt", "text/plain"⟩ initModel)).error = none) :=
  ⟨rfl, by decide, by decide,
    C6_missing_fields_yield_mock _ ⟨"notes.txt", "text/plain"⟩ _ rfl
      (by decide) (by decide) (Or.inr rfl) (Or.inl rfl)⟩

/-- C10: the response checks use JavaScript truthiness, so a field that is
present but equal to the empty string is treated as absent: whenever
`soap_note_text` OR `patient_summary_text` is the empty string, and likewise
`soapNote` OR `patientSummary`, both pair checks fail and the placeholder
pair is rendered instead of any returned texts. -/
theorem C10_empty_string_fields_treated_absent (m : Model) (f : FileData)
    (resp : Response)
    (hf : m.file = some f)
    (hok : respOk resp = true) (hct : contentTypeOk resp = true)
    (hnew : resp.body.soap_note_text = some "" ∨
      resp.body.patient_summary_text = some "")
    (hleg : resp.body.soapNote = some "" ∨
      resp.body.patientSummary = some "") :
    (handleUpload resp m).output = some ⟨mockSoapNote f.name, mockPatientSummary⟩ := by
  rcases hnew with h12 | h12 <;> rcases hleg with h34 | h34 <;>
    simp [handleUpload, hf, hok, hct, h12, h34, truthy]

/-- C10 witness: a 200 JSON response in which `patient_summary_text` and the
legacy `soapNote` are empty strings while the other two fields carry text
still renders the mock pair. -/
theorem C10_empty_string_fields_treated_absent_witness :
    (handleFileSelect ⟨"notes.txt", "text/plain"⟩ initModel).file
      = some ⟨"notes.txt", "text/plain"⟩ ∧
    respOk ⟨200, some "application/json; charset=utf-8",
        ⟨some "a note", some "", some "", some "legacy summary"⟩⟩ = true ∧
    contentTypeOk ⟨200, some "application/json; charset=utf-8",
        ⟨some "a note", some "", some "", some "legacy summary"⟩⟩ = true ∧
    (handleUpload ⟨200, some "application/json; charset=utf-8",
        ⟨some "a note", some "", some "", some "legacy summary"⟩⟩
        (handleFileSelect ⟨"notes.txt", "text/plain"⟩ initModel)).output
      = some ⟨mockSoapNote "notes.txt", mockPatientSummary⟩ :=
  ⟨rfl, by decide, by decide,
    C10_empty_string_fields_treated_absent _ ⟨"notes.txt", "text/plain"⟩ _ rfl
      (by decide) (by decide) (Or.inr rfl) (Or.inl rfl)⟩

/-- C7: `pauseRecording` is a no-op outside the `Recording` state (in
particular while already `Paused`), `resumeRecording` is a no-op outside
`Paused`; and from `Recording` with one live one-second interval, pause
followed by resume leaves the elapsed-time counter unchanged, leaves exactly
one live interval so the next tick increments it by exactly one, and
reschedules the level-metering refresh. -/
theorem C7_pause_resume (lvl : Rat) (m : Model) :
    (m.isRecording = false ∨ m.isPaused = true → pauseRecording m = m) ∧
    (m.isRecording = false ∨ m.isPaused = false → resumeRecording lvl m = m) ∧
    (∀ rec iid sid,
      m.isRecording = true → m.isPaused = false →
      m.mediaRecorderRef = some rec → m.intervalRef = some iid →
      m.liveIntervals = [iid] → m.streamRef = some sid →
      (resumeRecording lvl (pauseRecording m)).recordingTime = m.recordingTime ∧
      (resumeRecording lvl (pauseRecording m)).liveIntervals.length = 1 ∧
      (tick (resumeRecording lvl (pauseRecording m))).recordingTime
        = m.recordingTime + 1 ∧
      (resumeRecording lvl (pauseRecording m)).animationRef.isSome = true) := by
  refine ⟨?_, ?_, ?_⟩
  · rintro (h | h) <;>
      rcases hrec : m.mediaRecorderRef with _ | rec <;>
      simp [pauseRecording, hrec, h]
  · rintro (h | h) <;>
      rcases hrec : m.mediaRecorderRef with _ | rec <;>
      simp [resumeRecording, hrec, h]
  · intro rec iid sid hR hP hrec hint hli hstream
    rcases hA : m.animationRef with _ | fid <;>
      rcases hC : m.audioContextRef with _ | cid <;>
      simp [pauseRecording, resumeRecording, startAudioLevelMonitoring,
        stopAudioLevelMonitoring, tick, hR, hP, hrec, hint, hli, hstream, hA, hC]

/-- C7 witness: pause after two ticks of a fresh recording, then resume; the
counter stays at 2 and the next tick reaches 3, with metering rescheduled. -/
theorem C7_pause_resume_witness :
    (tick (tick (startRecording true 0 initModel))).isRecording = true ∧
    (tick (tick (startRecording true 0 initModel))).isPaused = false ∧
    (tick (tick (startRecording true 0 initModel))).mediaRecorderRef
      = some ⟨MRState.recording, 0⟩ ∧
    (tick (tick (startRecording true 0 initModel))).intervalRef = some 0 ∧
    (tick (tick (startRecording true 0 initModel))).liveIntervals = [0] ∧
    (tick (tick (startRecording true 0 initModel))).streamRef = some 0 ∧
    ((resumeRecording 0 (pauseRecording (tick (tick (startRecording true 0 initModel))))).recordingTime
        = (tick (tick (startRecording true 0 initModel))).recordingTime ∧
      (resumeRecording 0 (pauseRecording (tick (tick (startRecording true 0 initModel))))).liveIntervals.length = 1 ∧
      (tick (resumeRecording 0 (pauseRecording (tick (tick (startRecording true 0 initModel)))))).recordingTime
        = (tick (tick (startRecording true 0 initModel))).recordingTime + 1 ∧
      (resumeRecording 0 (pauseRecording (tick (tick (startRecording true 0 initModel))))).animationRef.isSome = true) :=
  ⟨rfl, rfl, rfl, rfl, rfl, rfl,
    (C7_pause_resume 0 (tick (tick (startRecording true 0 initModel)))).2.2
      ⟨MRState.recording, 0⟩ 0 0 rfl rfl rfl rfl rfl rfl⟩

/-- C8, counterexample: after an unsupported file selection leaves the
unsupported-type error on screen, a SUCCESSFUL `startRecording` does not
clear it — the error state is still the old message, not `null`, falsifying
the claim that every successful action clears the error. -/
theorem C8_counterexample :
    (startRecording true 0
        (handleFileSelect ⟨"scan.pdf", "application/pdf"⟩ initModel)).error
      = some "Please select a .txt file or audio file (.mp3, .m4a, .wav)" ∧
    (startRecording true 0
        (handleFileSelect ⟨"scan.pdf", "application/pdf"⟩ initModel)).error
      ≠ none := by
  refine ⟨rfl, ?_⟩
  decide

/-- C8, amended: the error message is non-fatal and is cleared by a
successful file selection, by a successful use-this-recording, and by any
submission attempt with an active file that gets a successful JSON response
(`handleUpload` clears the error on entry and the success path never
re-sets it); a successful recording start, however, leaves any prior error
message unchanged. -/
theorem C8_error_clearing :
    (∀ (m : Model) (f : FileData), (isTextFile f || isAudioFile f) = true →
      (handleFileSelect f m).error = none) ∧
    (∀ (m : Model) (now : DateTimeStrings) (b : List Nat),
      m.recordedBlob = some b → (useRecording now m).error = none) ∧
    (∀ (m : Model) (f : FileData) (resp : Response), m.file = some f →
      respOk resp = true → contentTypeOk resp = true →
      (handleUpload resp m).error = none) ∧
    (∀ (m : Model) (lvl : Rat), (startRecording true lvl m).error = m.error) := by
  refine ⟨?_, ?_, ?_, ?_⟩
  · intro m f h
    simp [handleFileSelect, h]
  · intro m now b h
    simp [useRecording, h]
  · intro m f resp hf hok hct
    rcases h1 : truthy resp.body.soap_note_text <;>
      rcases h2 : truthy resp.body.patient_summary_text <;>
      rcases h3 : truthy resp.body.soapNote <;>
      rcases h4 : truthy resp.body.patientSummary <;>
      simp [handleUpload, hf, hok, hct, h1, h2, h3, h4]
  · intro m lvl
    simp [startRecording, startAudioLevelMonitoring]

/-- C8 witness: the amended theorem's four parts at concrete inputs — a
valid `.txt` selection, a use-this-recording with a blob, a 200 JSON
submission, and a successful recording start over a prior error. -/
theorem C8_error_clearing_witness :
    (isTextFile ⟨"notes.txt", "text/plain"⟩ || isAudioFile ⟨"notes.txt", "text/plain"⟩) = true ∧
    (handleFileSelect ⟨"notes.txt", "text/plain"⟩ initModel).error = none ∧
    ({ initModel with recordedBlob := some [3] } : Model).recordedBlob = some [3] ∧
    (useRecording ⟨"2026-10-11", "10:11:12"⟩
        { initModel with recordedBlob := some [3] }).error = none ∧
    (handleUpload ⟨200, some "application/json", ⟨some "n", some "s", none, none⟩⟩
        (handleFileSelect ⟨"notes.txt", "text/plain"⟩ initModel)).error = none ∧
    (startRecording true 0
        (handleFileSelect ⟨"scan.pdf", "application/pdf"⟩ initModel)).error
      = (handleFileSelect ⟨"scan.pdf", "application/pdf"⟩ initModel).error :=
  ⟨by decide,
    C8_error_clearing.1 initModel ⟨"notes.txt", "text/plain"⟩ (by decide),
    rfl,
    C8_error_clearing.2.1 { initModel with recordedBlob := some [3] }
      ⟨"2026-10-11", "10:11:12"⟩ [3] rfl,
    C8_error_clearing.2.2.1 _ ⟨"notes.txt", "text/plain"⟩ _ rfl (by decide) (by decide),
    C8_error_clearing.2.2.2 _ 0⟩

/-- C1, counterexample: start a recording (acquiring stream 0), then leave
`Recording` through the `Generate Another Note` reset.  The acquired
MediaStream receives NO release call — `stopCalls` is still empty — and the
stream ref is still held, falsifying the claim that every exit path
releases the capture device. -/
theorem C1_counterexample :
    (resetForm (startRecording true 0 initModel)).stopCalls = [] ∧
    (resetForm (startRecording true 0 initModel)).streamRef = some 0 ∧
    (resetForm (startRecording true 0 initModel)).isRecording = false := by
  refine ⟨rfl, rfl, rfl⟩

/-- C1, amended: leaving `Recording`/`Paused` through `stopRecording`
releases the capture device with exactly one stop call per acquired track
set (issued by the `onstop` callback); leaving through `cancelRecording`
releases the device but issues TWO stop calls per acquisition (one direct,
one in `onstop`); and the `Generate Another Note` reset issues none and
leaves the device open (there is no teardown cleanup in the component). -/
theorem C1_release_discipline (m : Model) (rec : MediaRecorderModel) (sid : Nat)
    (hR : m.isRecording = true)
    (hrec : m.mediaRecorderRef = some rec)
    (hrs : rec.streamId = sid)
    (hstream : m.streamRef = some sid)
    (hpend : m.pendingOnstops = [])
    (hcan : m.isCancelling = false) :
    (fireOnstop (stopRecording m)).stopCalls.count sid
      = m.stopCalls.count sid + 1 ∧
    (fireOnstop (cancelRecording m)).stopCalls.count sid
      = m.stopCalls.count sid + 2 ∧
    (resetForm m).stopCalls.count sid = m.stopCalls.count sid ∧
    (resetForm m).streamRef = some sid := by
  rcases hI : m.intervalRef with _ | iid <;>
    rcases hA : m.animationRef with _ | fid <;>
    rcases hC : m.audioContextRef with _ | cid <;>
    simp [stopRecording, cancelRecording, resetForm, fireOnstop, queueOnstop,
      stopAudioLevelMonitoring, hR, hrec, hrs, hstream, hpend, hcan,
      hI, hA, hC, List.count_append]

/-- C1 witness: the amended release accounting on a freshly started
recording. -/
theorem C1_release_discipline_witness :
    (startRecording true 0 initModel).isRecording = true ∧
    (startRecording true 0 initModel).mediaRecorderRef
      = some ⟨MRState.recording, 0⟩ ∧
    (startRecording true 0 initModel).streamRef = some 0 ∧
    (startRecording true 0 initModel).pendingOnstops = [] ∧
    (startRecording true 0 initModel).isCancelling = false ∧
    ((fireOnstop (stopRecording (startRecording true 0 initModel))).stopCalls.count 0
        = (startRecording true 0 initModel).stopCalls.count 0 + 1 ∧
      (fireOnstop (cancelRecording (startRecording true 0 initModel))).stopCalls.count 0
        = (startRecording true 0 initModel).stopCalls.count 0 + 2 ∧
      (resetForm (startRecording true 0 initModel)).stopCalls.count 0
        = (startRecording true 0 initModel).stopCalls.count 0 ∧
      (resetForm (startRecording true 0 initModel)).streamRef = some 0) :=
  ⟨rfl, rfl, rfl, rfl, rfl,
    C1_release_discipline (startRecording true 0 initModel)
      ⟨MRState.recording, 0⟩ 0 rfl rfl rfl rfl rfl rfl⟩

/-- C2, counterexample: start a recording, then leave `Recording` through
the `Generate Another Note` reset.  The metering refresh is cancelled but
the one-second interval is NOT — it is still live — falsifying the claim
that both periodic callbacks are cancelled on every exit path. -/
theorem C2_counterexample :
    (resetForm (startRecording true 0 initModel)).liveIntervals = [0] ∧
    (resetForm (startRecording true 0 initModel)).liveFrames = [] := by
  refine ⟨rfl, rfl⟩

/-- C2, amended: from `Recording`, `stopRecording`, `cancelRecording`, and
`pauseRecording` each cancel both the one-second interval and the metering
refresh, and stopping after a pause keeps both cancelled; the
`Generate Another Note` reset cancels only the metering refresh and leaves
the one-second interval live (and the component has no teardown cleanup). -/
theorem C2_timer_cancellation (m : Model) (rec : MediaRecorderModel)
    (iid fid cid : Nat)
    (hR : m.isRecording = true) (hP : m.isPaused = false)
    (hrec : m.mediaRecorderRef = some rec)
    (hint : m.intervalRef = some iid)
    (hli : m.liveIntervals = [iid])
    (hanim : m.animationRef = some fid)
    (hlf : m.liveFrames = [fid])
    (hctx : m.audioContextRef = some cid) :
    ((stopRecording m).liveIntervals = [] ∧ (stopRecording m).liveFrames = []) ∧
    ((cancelRecording m).liveIntervals = [] ∧ (cancelRecording m).liveFrames = []) ∧
    ((pauseRecording m).liveIntervals = [] ∧ (pauseRecording m).liveFrames = []) ∧
    ((stopRecording (pauseRecording m)).liveIntervals = [] ∧
      (stopRecording (pauseRecording m)).liveFrames = []) ∧
    ((resetForm m).liveIntervals = [iid] ∧ (resetForm m).liveFrames = []) := by
  rcases hstream : m.streamRef with _ | sid <;>
    simp [stopRecording, cancelRecording, pauseRecording, resetForm,
      queueOnstop, stopAudioLevelMonitoring, hR, hP, hrec, hint, hli,
      hanim, hlf, hctx, hstream]

/-- C2 witness: the amended cancellation accounting on a freshly started
recording. -/
theorem C2_timer_cancellation_witness :
    (startRecording true 0 initModel).isRecording = true ∧
    (startRecording true 0 initModel).isPaused = false ∧
    (startRecording true 0 initModel).mediaRecorderRef
      = some ⟨MRState.recording, 0⟩ ∧
    (startRecording true 0 initModel).intervalRef = some 0 ∧
    (startRecording true 0 initModel).liveIntervals = [0] ∧
    (startRecording true 0 initModel).animationRef = some 0 ∧
    (startRecording true 0 initModel).liveFrames = [0] ∧
    (startRecording true 0 initModel).audioContextRef = some 0 ∧
    (((stopRecording (startRecording true 0 initModel)).liveIntervals = [] ∧
        (stopRecording (startRecording true 0 initModel)).liveFrames = []) ∧
      ((cancelRecording (startRecording true 0 initModel)).liveIntervals = [] ∧
        (cancelRecording (startRecording true 0 initModel)).liveFrames = []) ∧
      ((pauseRecording (startRecording true 0 initModel)).liveIntervals = [] ∧
        (pauseRecording (startRecording true 0 initModel)).liveFrames = []) ∧
      ((stopRecording (pauseRecording (startRecording true 0 initModel))).liveIntervals = [] ∧
        (stopRecording (pauseRecording (startRecording true 0 initModel))).liveFrames = []) ∧
      ((resetForm (startRecording true 0 initModel)).liveIntervals = [0] ∧
        (resetForm (startRecording true 0 initModel)).liveFrames = [])) :=
  ⟨rfl, rfl, rfl, rfl, rfl, rfl, rfl, rfl,
    C2_timer_cancellation (startRecording true 0 initModel)
      ⟨MRState.recording, 0⟩ 0 0 0 rfl rfl rfl rfl rfl rfl rfl rfl⟩

/-- C3: from any `Recording` or `Paused` session (the recorder exists and
the stream ref is held), `cancelRecording` leaves no finished audio object
— `recordedBlob` is `none` both immediately and after the asynchronous
`onstop` fires, whose finalization the cancelling flag suppresses — and the
capture device's tracks are stopped. -/
theorem C3_cancel_discards_audio (m : Model) (rec : MediaRecorderModel) (sid : Nat)
    (hR : m.isRecording = true)
    (hrec : m.mediaRecorderRef = some rec)
    (hstream : m.streamRef = some sid)
    (hpend : m.pendingOnstops = []) :
    (cancelRecording m).recordedBlob = none ∧
    (fireOnstop (cancelRecording m)).recordedBlob = none ∧
    (cancelRecording m).stopCalls.count sid = m.stopCalls.count sid + 1 := by
  rcases hI : m.intervalRef with _ | iid <;>
    rcases hA : m.animationRef with _ | fid <;>
    rcases hC : m.audioContextRef with _ | cid <;>
    simp [cancelRecording, fireOnstop, queueOnstop, stopAudioLevelMonitoring,
      hR, hrec, hstream, hpend, hI, hA, hC, List.count_append]

/-- C3 witness: cancelling a freshly started recording that has already
accumulated a data chunk. -/
theorem C3_cancel_discards_audio_witness :
    (dataAvailable 5 (startRecording true 0 initModel)).isRecording = true ∧
    (dataAvailable 5 (startRecording true 0 initModel)).mediaRecorderRef
      = some ⟨MRState.recording, 0⟩ ∧
    (dataAvailable 5 (startRecording true 0 initModel)).streamRef = some 0 ∧
    (dataAvailable 5 (startRecording true 0 initModel)).pendingOnstops = [] ∧
    ((cancelRecording (dataAvailable 5 (startRecording true 0 initModel))).recordedBlob = none ∧
      (fireOnstop (cancelRecording (dataAvailable 5 (startRecording true 0 initModel)))).recordedBlob = none ∧
      (cancelRecording (dataAvailable 5 (startRecording true 0 initModel))).stopCalls.count 0
        = (dataAvailable 5 (startRecording true 0 initModel)).stopCalls.count 0 + 1) :=
  ⟨rfl, rfl, rfl, rfl,
    C3_cancel_discards_audio (dataAvailable 5 (startRecording true 0 initModel))
      ⟨MRState.recording, 0⟩ 0 rfl rfl rfl rfl⟩

/-- Appending strings appends their character lists. -/
theorem data_append (a b : String) : (a ++ b).data = a.data ++ b.data := rfl

/-- `takeWhile` over a list whose left part wholly satisfies the predicate
and whose next element fails it returns exactly the left part. -/
theorem takeWhile_append_of_all {α : Type} (p : α → Bool) (l : List α) (d : α)
    (r : List α) (hl : ∀ c ∈ l, p c = true) (hd : p d = false) :
    (l ++ d :: r).takeWhile p = l := by
  induction l with
  | nil => simp [List.takeWhile_cons, hd]
  | cons a as ih =>
    have ha : p a = true := hl a (by simp)
    simp only [List.cons_append, List.takeWhile_cons, ha, if_true]
    rw [ih (fun c hc => hl c (by simp [hc]))]

/-- On a name of the form `base.ext` with `ext` nonempty and free of dots
and slashes, the modelled `name.replace` regex strips exactly `.ext`. -/
theorem stripExt_strips (base ext : String) (hne : ext ≠ "")
    (hok : ∀ c ∈ ext.data, c ≠ '.' ∧ c ≠ '/') :
    stripExt (base ++ "." ++ ext) = base := by
  have hextne : ext.data ≠ [] := by
    intro h
    exact hne (String.ext h)
  have hrev : (base ++ "." ++ ext).data.reverse
      = ext.data.reverse ++ '.' :: base.data.reverse := by
    simp [data_append, List.reverse_append]
  have hp : ∀ c ∈ ext.data.reverse, (!(c == '.' || c == '/')) = true := by
    intro c hc
    rw [List.mem_reverse] at hc
    have h := hok c hc
    simp only [Bool.not_eq_true', Bool.or_eq_false_iff, beq_eq_false_iff_ne]
    exact h
  have htake : ((base ++ "." ++ ext).data.reverse).takeWhile
      (fun c => !(c == '.' || c == '/')) = ext.data.reverse := by
    rw [hrev]
    exact takeWhile_append_of_all _ ext.data.reverse '.' base.data.reverse hp (by decide)
  have hdrop : ((base ++ "." ++ ext).data.reverse).drop ext.data.reverse.length
      = '.' :: base.data.reverse := by
    rw [hrev]
    exact List.drop_left ext.data.reverse ('.' :: base.data.reverse)
  have hempty : (ext.data.reverse).isEmpty = false := by
    simp [List.isEmpty_iff, hextne]
  simp only [stripExt, htake]
  rw [hdrop]
  simp only [hempty, Bool.false_eq_true, if_false, List.reverse_reverse]

/-- Mapping the colon-to-dash replacement over a colon-free character list
changes nothing. -/
theorem map_colon_free (l : List Char) (h : ∀ c ∈ l, c ≠ ':') :
    l.map (fun c => if c = ':' then '-' else c) = l := by
  induction l with
  | nil => rfl
  | cons a as ih =>
    have ha : a ≠ ':' := h a (by simp)
    simp only [List.map_cons, ha, if_false, ih (fun c hc => h c (by simp [hc]))]

/-- C9: a downloaded note is named `<basename>_<type>_<date>.txt`, where the
basename is the active file's name with its final extension stripped, or
`patient-visit` when no file is active; and a recorded-audio download is
named `recording_<date>_<HH-MM-SS>.wav` with the time's colons replaced by
hyphens. -/
theorem C9_download_filenames :
    (∀ (m : Model) (f : FileData) (content t : String) (now : DateTimeStrings)
        (base ext : String),
      m.file = some f → f.name = base ++ "." ++ ext → ext ≠ "" →
      (∀ c ∈ ext.data, c ≠ '.' ∧ c ≠ '/') →
      downloadFile content t now m
        = base ++ "_" ++ t ++ "_" ++ now.isoDate ++ ".txt") ∧
    (∀ (m : Model) (content t : String) (now : DateTimeStrings),
      m.file = none →
      downloadFile content t now m
        = "patient-visit" ++ "_" ++ t ++ "_" ++ now.isoDate ++ ".txt") ∧
    (∀ (d hh mm ss : String),
      (∀ c ∈ hh.data, c ≠ ':') → (∀ c ∈ mm.data, c ≠ ':') →
      (∀ c ∈ ss.data, c ≠ ':') →
      generateRecordingFilename ⟨d, hh ++ ":" ++ mm ++ ":" ++ ss⟩
        = "recording_" ++ d ++ "_" ++ (hh ++ "-" ++ mm ++ "-" ++ ss) ++ ".wav") := by
  refine ⟨?_, ?_, ?_⟩
  · intro m f content t now base ext hf hname hne hok
    simp only [downloadFile, hf, hname]
    rw [stripExt_strips base ext hne hok]
  · intro m content t now hf
    simp [downloadFile, hf]
  · intro d hh mm ss h1 h2 h3
    have hrepl : replaceColonsWithDashes (hh ++ ":" ++ mm ++ ":" ++ ss)
        = hh ++ "-" ++ mm ++ "-" ++ ss := by
      apply String.ext
      simp only [replaceColonsWithDashes, data_append, List.map_append,
        map_colon_free hh.data h1, map_colon_free mm.data h2,
        map_colon_free ss.data h3]
      rfl
    simp only [generateRecordingFilename, hrepl]

/-- C9 witness: `visit1.mp3` with artifact type `soap-note` on 2026-10-11,
no-file fallback, and a recording at 10:11:12. -/
theorem C9_download_filenames_witness :
    (handleFileSelect ⟨"visit1.mp3", "audio/mpeg"⟩ initModel).file
      = some ⟨"visit1.mp3", "audio/mpeg"⟩ ∧
    ("visit1.mp3" : String) = "visit1" ++ "." ++ "mp3" ∧
    downloadFile "note text" "soap-note" ⟨"2026-10-11", "10:11:12"⟩
        (handleFileSelect ⟨"visit1.mp3", "audio/mpeg"⟩ initModel)
      = "visit1" ++ "_" ++ "soap-note" ++ "_" ++ "2026-10-11" ++ ".txt" ∧
    downloadFile "note text" "soap-note" ⟨"2026-10-11", "10:11:12"⟩ initModel
      = "patient-visit" ++ "_" ++ "soap-note" ++ "_" ++ "2026-10-11" ++ ".txt" ∧
    generateRecordingFilename ⟨"2026-10-11", "10" ++ ":" ++ "11" ++ ":" ++ "12"⟩
      = "recording_" ++ "2026-10-11" ++ "_" ++ ("10" ++ "-" ++ "11" ++ "-" ++ "12") ++ ".wav" :=
  ⟨rfl, rfl,
    C9_download_filenames.1
      (handleFileSelect ⟨"visit1.mp3", "audio/mpeg"⟩ initModel)
      ⟨"visit1.mp3", "audio/mpeg"⟩ "note text" "soap-note"
      ⟨"2026-10-11", "10:11:12"⟩ "visit1" "mp3" rfl rfl (by decide) (by decide),
    C9_download_filenames.2.1 initModel "note text" "soap-note"
      ⟨"2026-10-11", "10:11:12"⟩ rfl,
    C9_download_filenames.2.2 "2026-10-11" "10" "11" "12"
      (by decide) (by decide) (by decide)⟩

end EZNotes
